import Mathlib

/-!
Shallow embedding of the core algorithms of the lapd-plasma-analysis repository:
the interferometry time-alignment / calibration routine (`interferometry.py`)
and the Mach-number / flow-velocity derivation (`mach/velocity.py`).

Modelling conventions used throughout:
* numpy / xarray floating-point values are modelled as rationals (`ℚ`) on the
  interferometry side; the Mach side needs `log`, `cos`, `sqrt` and is modelled
  over the reals.
* an IEEE NaN (and an xarray value masked out or dropped by alignment) is
  modelled as `none` in `Option ℚ`; arithmetic propagates `none` the way
  floating-point arithmetic propagates NaN.  Division whose denominator is
  exactly zero also produces `none` (numpy emits inf or nan there and never
  raises on array operands).
* a Python exception is modelled with `Except String`.
* labeled arrays are modelled by their index functions plus explicit
  coordinate lists; the density field handled by `interferometry_calibration`
  has dimensions (x, y, plateau) with the `time` coordinate attached as an
  auxiliary coordinate along the plateau axis - the layout required by
  `x_integral.idxmax('plateau')` (line 81) and by the arrays the function
  itself builds at lines 92-97 (`dims=['plateau']` with `time` assigned along
  `plateau`).
-/

/-- NaN-propagating addition on optional rationals. -/
def addOpt : Option ℚ → Option ℚ → Option ℚ
  | some a, some b => some (a + b)
  | _, _ => none

/-- NaN-propagating multiplication on optional rationals. -/
def mulOpt : Option ℚ → Option ℚ → Option ℚ
  | some a, some b => some (a * b)
  | _, _ => none

/-- NaN-propagating division on optional rationals; a zero denominator gives an
undefined value (numpy produces inf or nan there, both modelled as `none`). -/
def divOpt : Option ℚ → Option ℚ → Option ℚ
  | some a, some b => if b = 0 then none else some (a / b)
  | _, _ => none

/-- Mean of a list of (defined) values; the mean of an empty list is undefined
(this is what `DataArray.mean` with its default `skipna=True` returns for an
all-NaN selection). -/
def meanList (l : List ℚ) : Option ℚ :=
  if l.length = 0 then none else some (l.sum / l.length)

/-- Mean of `f 0, ..., f (n-1)` as a plain rational (used for coordinate means,
which are always defined). -/
def rmean (f : ℕ → ℚ) (n : ℕ) : ℚ :=
  ((List.range n).map f).sum / n

/-- First index attaining the maximum among the defined entries of
`f 0, ..., f (n-1)` (the `skipna` behaviour of `idxmax`; numpy's `argmax`
returns the first maximising index). -/
def argmaxOpt (f : ℕ → Option ℚ) (n : ℕ) : ℕ :=
  (List.range n).foldl (fun best j =>
    match f j, f best with
    | some a, some b => if b < a then j else best
    | some _, none => j
    | _, _ => best) 0

/-- First index attaining the minimum of `f 0, ..., f (n-1)`. -/
def argminIdx (f : ℕ → ℚ) (n : ℕ) : ℕ :=
  (List.range n).foldl (fun best j => if f j < f best then j else best) 0

/-- Numpy's `arange n` as a list of rationals. -/
def arange (n : ℕ) : List ℚ :=
  (List.range n).map (fun i => (i : ℚ))

/-- Projection of an `Except` result, `none` when an exception was raised. -/
def exceptOk? {α : Type _} (e : Except String α) : Option α :=
  match e with
  | .ok a => some a
  | .error _ => none

/-! ## `to_real_units_interferometry` (interferometry.py lines 134-137) -/

/-- Fixed area-normalization constant `8. * 10 ** 13` (per cm²), from the
MATLAB code. -/
def area_factor : ℚ := 8 * 10 ^ 13

/-- Fixed time-per-sample constant `4.88 * 10 ** -5` seconds, converted to
milliseconds. -/
def time_factor : ℚ := ((4.88 : ℚ) * (10 : ℚ) ^ (-(5 : ℤ))) * 1000

/-- Embeds `to_real_units_interferometry`: multiply the data array by
`area_factor` and the time array by `time_factor`. -/
def to_real_units_interferometry (dat tim : List ℚ) : List ℚ × List ℚ :=
  (dat.map (· * area_factor), tim.map (· * time_factor))

/-! ## Combined density scale factor (interferometry.py lines 124-125)

The Python source is

  density_scale_factor = (density_scaling['x'] if has_x else 0
                          + density_scaling['y'] if has_y else 0) / (has_x + has_y)

A Python conditional expression is right-associative and binds looser than `+`,
so the numerator parses as

  density_scaling['x'] if has_x else ((0 + density_scaling['y']) if has_y else 0)

and the denominator is the integer `has_x + has_y`.  The embedding reproduces
exactly that parse. -/

/-- The all-zero scaling array standing for the integer literal `0` broadcast
over a scaling array. -/
def zeroScal : ℕ → ℕ → Option ℚ := fun _ _ => some 0

/-- Embeds line 124-125 of interferometry.py: the combined density scale
factor, elementwise over (secondary index, plateau index), with the Python
conditional-expression precedence reproduced faithfully. -/
def density_scale_factor (hx hy : Bool) (sx sy : ℕ → ℕ → Option ℚ) :
    ℕ → ℕ → Option ℚ :=
  fun j p =>
    divOpt ((if hx then sx else if hy then fun j p => addOpt (some 0) (sy j p) else zeroScal) j p)
           (some ((hx.toNat + hy.toNat : ℕ) : ℚ))

/-! ## Re-binning (interferometry.py lines 92-97)

For every density sample time `t`, all shifted interferometry samples whose
shifted time satisfies `t - dt/2 < s < t + dt/2` are averaged together
(`.where(...).mean()`; the mean skips undefined values and is itself undefined
when no sample survives). -/

/-- Embeds one bucket of lines 92-94: the mean of the interferometry samples
whose (shifted) time lies strictly between `t - dt/2` and `t + dt/2`.
`samples` pairs each shifted sample time with its (possibly undefined) value. -/
def rebin (samples : List (ℚ × Option ℚ)) (dt t : ℚ) : Option ℚ :=
  meanList ((samples.filter
    (fun sm => decide (t - dt / 2 < sm.1 ∧ sm.1 < t + dt / 2))).filterMap Prod.snd)

/-- The claim's description of a bucket: the defined samples whose shifted time
lies within half a density time-step of `t`. -/
def claim_bucket (samples : List (ℚ × Option ℚ)) (dt t : ℚ) : List ℚ :=
  (samples.filter (fun sm => decide (|sm.1 - t| < dt / 2))).filterMap Prod.snd

/-- Average time step of the density time coordinate (interferometry.py
line 63): total time elapsed divided by the number of time measurements. -/
def time_step (times : List ℚ) : ℚ :=
  (times.getD (times.length - 1) 0 - times.getD 0 0) / times.length

/-- An evenly spaced time grid `t0, t0+h, ..., t0+(n-1)h`. -/
def gridTimes (n : ℕ) (t0 h : ℚ) : List ℚ :=
  (List.range n).map (fun (j : ℕ) => t0 + (j : ℚ) * h)

/-- An interferometry trace sampled exactly on the grid `gridTimes n t0 h`,
with value `v j` at the j-th grid point (all values defined). -/
def gridSamples (n : ℕ) (t0 h : ℚ) (v : ℕ → ℚ) : List (ℚ × Option ℚ) :=
  (List.range n).map (fun (j : ℕ) => (t0 + (j : ℚ) * h, some (v j)))

/-! ## Steady-state masking (interferometry.py lines 127-129) -/

/-- Embeds lines 128-129: the original density field multiplied elementwise by
the combined scaling factor, then masked (`.where`, without `drop`) to the
inclusive steady-state plateau range; indices failing the condition become
undefined, not zero.  Indices are (x, y, plateau); `plCo` is the plateau
coordinate along the plateau axis. -/
def calibrated_density (density factor : ℕ → ℕ → ℕ → Option ℚ)
    (plCo : ℕ → ℚ) (ssStart ssEnd : ℚ) : ℕ → ℕ → ℕ → Option ℚ :=
  fun i j p =>
    if ssStart ≤ plCo p ∧ plCo p ≤ ssEnd then mulOpt (density i j p) (factor i j p)
    else none

/-! ## The density input and the full calibration pipeline

`interferometry_calibration` receives the density diagnostic as a labeled
array over dimensions (x, y, plateau), with coordinate lists for each axis and
the `time` coordinate attached along the plateau axis.  `sizes` models
`DataArray.sizes` (a name-to-length mapping whose missing keys raise
`KeyError`). -/

structure DensityInput where
  sizes : List (String × ℕ)
  xs : List ℚ
  ys : List ℚ
  plateaus : List ℚ
  times : List ℚ
  data : ℕ → ℕ → ℕ → Option ℚ

/-- Conversion value `(1 / u.m ** 3).to(1 / u.cm ** 3).value` (line 46). -/
def m3_to_cm3 : ℚ := (10 : ℚ) ^ (-(6 : ℤ))

/-- `DataArray.sizes[name]`: the length of a named dimension, raising
`KeyError` when the dimension is absent (lines 48-49). -/
def sizes_lookup (sizes : List (String × ℕ)) (name : String) : Except String ℕ :=
  match sizes.find? (fun kv => kv.1 == name) with
  | some kv => .ok kv.2
  | none => .error ("KeyError: " ++ name)

/-- `np.mean(inter_raw, axis=0)` (line 35): per-column means of the raw 2-D
interferometry block. -/
def column_means (raw : List (List ℚ)) : List ℚ :=
  (List.range (raw.headD []).length).map
    (fun (j : ℕ) => (raw.map (fun row => row.getD j 0)).sum / raw.length)

/-- Numpy `gradient` at index `i` of an `n`-point series against coordinate
`t`: one-sided first-order differences at the two edges, the second-order
central difference in the interior (this is what `DataArray.differentiate`
computes).  Series of fewer than two points are not handled by numpy and are
not exercised here. -/
def gradient_at (n : ℕ) (v t : ℕ → ℚ) (i : ℕ) : ℚ :=
  if i = 0 then (v 1 - v 0) / (t 1 - t 0)
  else if i = n - 1 then (v (n - 1) - v (n - 2)) / (t (n - 1) - t (n - 2))
  else
    let hs := t i - t (i - 1)
    let hd := t (i + 1) - t i
    (hs ^ 2 * v (i + 1) + (hd ^ 2 - hs ^ 2) * v i - hd ^ 2 * v (i - 1)) /
      (hs * hd * (hs + hd))

/-- Embeds line 59: `inter_data.differentiate('time').idxmin('time')`, the
time at which the numerical derivative of the interferometry trace is smallest
(the steepest collapse). -/
def inter_collapse_time (vals times : List ℚ) : ℚ :=
  times.getD
    (argminIdx (gradient_at vals.length (fun i => vals.getD i 0) (fun i => times.getD i 0))
      vals.length) 0

/-- Indices of the coordinate entries lying strictly inside the core region
(lines 68-69, `abs(coord) < core_region` with `drop=True`). -/
def keptIdx (coords : List ℚ) (core_region : ℚ) : List ℕ :=
  (List.range coords.length).filter (fun i => decide (|coords.getD i 0| < core_region))

/-- Index of the nearest defined entry strictly before `i`, if any. -/
def prevDef (v : ℕ → Option ℚ) (i : ℕ) : Option ℕ :=
  ((List.range i).filter (fun l => (v l).isSome)).getLast?

/-- Index of the nearest defined entry strictly after `i` (below `n`), if
any. -/
def nextDef (v : ℕ → Option ℚ) (n i : ℕ) : Option ℕ :=
  ((List.range n).filter (fun r => decide (i < r) && (v r).isSome)).head?

/-- Embeds line 72, `interpolate_na(dim='x', use_coordinate=True,
max_gap=10.)`: an undefined entry is filled by linear interpolation between
its nearest defined neighbours when the coordinate distance between those
neighbours is at most 10; boundary gaps are never extrapolated. -/
def interpolate_na (n : ℕ) (coord : ℕ → ℚ) (v : ℕ → Option ℚ) : ℕ → Option ℚ :=
  fun i =>
    match v i with
    | some a => some a
    | none =>
      match prevDef v i, nextDef v n i with
      | some l, some r =>
        if coord r - coord l ≤ 10 then
          some ((v l).getD 0 +
            ((v r).getD 0 - (v l).getD 0) * (coord i - coord l) / (coord r - coord l))
        else none
      | _, _ => none

/-- Trapezoidal integration of `n` optional samples against a coordinate
(`DataArray.integrate`); any undefined sample makes the whole integral
undefined, matching NaN propagation through `np.trapz`. -/
def trapz (n : ℕ) (coord : ℕ → ℚ) (v : ℕ → Option ℚ) : Option ℚ :=
  (List.range (n - 1)).foldl
    (fun acc i =>
      addOpt acc
        (mulOpt (mulOpt (some (coord (i + 1) - coord i)) (addOpt (v i) (v (i + 1))))
          (some (1 / 2))))
    (some 0)

/-- A line-integral array: one secondary spatial dimension plus the sample
axis.  For the arrays built inside `interferometry_calibration` the sample
axis is the `plateau` dimension, and the `time` coordinate rides along it as
an auxiliary (non-dimension) coordinate. -/
structure IntegralDA where
  secName : String
  sampleAxisName : String
  secLen : ℕ
  sampleLen : ℕ
  sampleCoord : ℕ → ℚ
  timeCoord : ℕ → ℚ
  values : ℕ → ℕ → Option ℚ

/-- The dimension names of a line-integral array, in order. -/
def IntegralDA.dimNames (a : IntegralDA) : List String :=
  [a.secName, a.sampleAxisName]

/-- Embeds line 81, `x_integral.idxmax('plateau').coords['time'].mean()`:
`idxmax` demands that `'plateau'` be a dimension of the array (else xarray
raises `KeyError`); its result carries the auxiliary `time` coordinate at the
maximising index, which is then averaged over the secondary dimension. -/
def density_collapse_time_x (a : IntegralDA) : Except String ℚ :=
  if "plateau" ∈ a.dimNames then
    .ok (rmean (fun j => a.timeCoord (argmaxOpt (a.values j) a.sampleLen)) a.secLen)
  else .error "KeyError: plateau"

/-- Embeds line 105, `y_integral.idxmax('time').mean()`: `idxmax` demands that
`'time'` be a dimension of the array; were it one, the mean of the returned
`time` labels at the maximising indices would result. -/
def density_collapse_time_y (a : IntegralDA) : Except String ℚ :=
  if "time" ∈ a.dimNames then
    .ok (rmean (fun j => a.timeCoord (argmaxOpt (a.values j) a.sampleLen)) a.secLen)
  else .error "KeyError: time"

/-- The density data converted to per-cubic-centimetre units (line 46). -/
def density_data_cm3 (d : DensityInput) : ℕ → ℕ → ℕ → Option ℚ :=
  fun i j p => (d.data i j p).map (· * m3_to_cm3)

/-- The core-restricted density (lines 68-69) after NaN interpolation along
the x coordinate (line 72), indexed by positions in the kept coordinate
lists. -/
def core_interp_density (d : DensityInput) (core_region : ℚ) (a b p : ℕ) : Option ℚ :=
  let kx := keptIdx d.xs core_region
  let ky := keptIdx d.ys core_region
  interpolate_na kx.length (fun a' => d.xs.getD (kx.getD a' 0) 0)
    (fun a' => density_data_cm3 d (kx.getD a' 0) (ky.getD b 0) p) a

/-- Line 78: the core density line-integral along x, an array over
(y, plateau) with the `time` coordinate along `plateau`. -/
def x_integral (d : DensityInput) (core_region : ℚ) : IntegralDA :=
  let kx := keptIdx d.xs core_region
  let ky := keptIdx d.ys core_region
  { secName := "y", sampleAxisName := "plateau",
    secLen := ky.length, sampleLen := d.plateaus.length,
    sampleCoord := fun p => d.plateaus.getD p 0,
    timeCoord := fun p => d.times.getD p 0,
    values := fun b p =>
      trapz kx.length (fun a' => d.xs.getD (kx.getD a' 0) 0)
        (fun a => core_interp_density d core_region a b p) }

/-- Line 102: the core density line-integral along y, an array over
(x, plateau) with the `time` coordinate along `plateau`. -/
def y_integral (d : DensityInput) (core_region : ℚ) : IntegralDA :=
  let kx := keptIdx d.xs core_region
  let ky := keptIdx d.ys core_region
  { secName := "x", sampleAxisName := "plateau",
    secLen := kx.length, sampleLen := d.plateaus.length,
    sampleCoord := fun p => d.plateaus.getD p 0,
    timeCoord := fun p => d.times.getD p 0,
    values := fun a p =>
      trapz ky.length (fun b' => d.ys.getD (ky.getD b' 0) 0)
        (fun b => core_interp_density d core_region a b p) }

/-- Lines 92-97 applied over the whole density time coordinate: the
interferometry trace, time-shifted by `shift`, re-binned onto the density
times, one optional value per plateau index. -/
def inter_avg_on_density_times (inter_vals inter_times : List ℚ) (shift dt : ℚ)
    (times : List ℚ) : ℕ → Option ℚ :=
  fun p => rebin ((inter_times.map (· + shift)).zip (inter_vals.map some)) dt
    (times.getD p 0)

/-- Line 98 / line 118: the per-axis scaling factor, the re-binned
interferometry value divided elementwise by the line integral. -/
def axis_scaling (avg : ℕ → Option ℚ) (integral : IntegralDA) : ℕ → ℕ → Option ℚ :=
  fun j p => divOpt (avg p) (integral.values j p)

/-- Label-based alignment of a factor whose secondary dimension carries the
core-kept coordinate labels with an index into the original coordinate list
(xarray aligns shared dimensions by coordinate label; positions dropped from
the core are absent from the aligned product). -/
def alignIdx (kept : List ℕ) (idx : ℕ) (f : ℕ → Option ℚ) : Option ℚ :=
  match kept.findIdx? (fun k => k == idx) with
  | some pos => f pos
  | none => none

/-- The triple returned by `interferometry_calibration`: the per-axis scaling
dictionary, the axis-activity booleans and the calibrated density field. -/
structure CalOutput where
  scaling_x : Option (ℕ → ℕ → Option ℚ)
  scaling_y : Option (ℕ → ℕ → Option ℚ)
  has_x : Bool
  has_y : Bool
  calibrated : ℕ → ℕ → ℕ → Option ℚ

/-- Embeds `interferometry_calibration` (interferometry.py lines 10-131) over
the density field and the raw interferometry block, for the array layout the
function itself works in (dimensions x, y, plateau; `time` along `plateau`).
Python exceptions (`KeyError` from a missing dimension at lines 48-49 and
inside `idxmax`, `ZeroDivisionError` at line 124 when no axis is active) are
`Except.error` values. -/
def interferometry_calibration (d : DensityInput) (inter_raw : List (List ℚ))
    (steady_state_start steady_state_end core_region : ℚ) : Except String CalOutput :=
  let inter_means := column_means inter_raw
  let inter_pair := to_real_units_interferometry inter_means (arange inter_means.length)
  let inter_vals := inter_pair.1
  let inter_times := inter_pair.2
  match sizes_lookup d.sizes "x" with
  | .error e => .error e
  | .ok nx =>
    match sizes_lookup d.sizes "y" with
    | .error e => .error e
    | .ok ny =>
      let has_x := decide (1 < nx)
      let has_y := decide (1 < ny)
      let inter_collapse := inter_collapse_time inter_vals inter_times
      let dt := time_step d.times
      let xres : Except String (Option (ℕ → ℕ → Option ℚ)) :=
        if has_x then
          match density_collapse_time_x (x_integral d core_region) with
          | .error e => .error e
          | .ok cx =>
            .ok (some (axis_scaling
              (inter_avg_on_density_times inter_vals inter_times (cx - inter_collapse) dt d.times)
              (x_integral d core_region)))
        else .ok none
      match xres with
      | .error e => .error e
      | .ok scaling_x =>
        let yres : Except String (Option (ℕ → ℕ → Option ℚ)) :=
          if has_y then
            match density_collapse_time_y (y_integral d core_region) with
            | .error e => .error e
            | .ok cy =>
              .ok (some (axis_scaling
                (inter_avg_on_density_times inter_vals inter_times (cy - inter_collapse) dt d.times)
                (y_integral d core_region)))
          else .ok none
        match yres with
        | .error e => .error e
        | .ok scaling_y =>
          if has_x || has_y then
            let factor := density_scale_factor has_x has_y
              (scaling_x.getD zeroScal) (scaling_y.getD zeroScal)
            let factorFull : ℕ → ℕ → ℕ → Option ℚ :=
              if has_x then fun _i j p => alignIdx (keptIdx d.ys core_region) j (fun b => factor b p)
              else fun i _j p => alignIdx (keptIdx d.xs core_region) i (fun a => factor a p)
            .ok { scaling_x := scaling_x, scaling_y := scaling_y,
                  has_x := has_x, has_y := has_y,
                  calibrated := calibrated_density d.data factorFull
                    (fun p => d.plateaus.getD p 0) steady_state_start steady_state_end }
          else .error "ZeroDivisionError: division by zero"

/-! ## Mach numbers and flow velocity (mach/velocity.py)

Saturation currents, Mach numbers and velocities involve `log`, `cos` and
`sqrt` and are modelled over the reals.  The input carries the set of faces
present in the `face` coordinate together with the current data per face;
`.sel(face=k)` on an absent face raises (`KeyError`), modelled by the guard on
faces 2 and 5. -/

structure MachInput (σ : Type) where
  faces : Finset ℕ
  isat : ℕ → σ → ℝ

/-- The Mach-number Dataset: `M_para` is always present; the perpendicular
fields are present only when computed. -/
structure MachDS (σ : Type) where
  M_para : σ → ℝ
  M_perp : Option (σ → ℝ)
  M_perp_fore : Option (σ → ℝ)
  M_perp_aft : Option (σ → ℝ)

/-- Magnetization factor (velocity.py line 78). -/
def magnetization_factor : ℝ := 0.5

/-- Angle of the fore face with the B-field (velocity.py line 79). -/
noncomputable def angle_fore : ℝ := Real.pi / 4

/-- Angle of the aft face with the B-field (velocity.py line 80). -/
noncomputable def angle_aft : ℝ := Real.pi / 4

/-- Embeds `get_mach_numbers` (velocity.py lines 9-105): the parallel Mach
number from faces 2 and 5 (lines 85-89); the perpendicular numbers only when
all of faces 1, 3, 4, 6 are present (lines 92-103), with `M_perp` the
pointwise mean of the fore and aft estimates. -/
noncomputable def get_mach_numbers {σ : Type} (da : MachInput σ) :
    Except String (MachDS σ) :=
  if 2 ∈ da.faces ∧ 5 ∈ da.faces then
    let parallel_mach : σ → ℝ :=
      fun s => magnetization_factor * Real.log (da.isat 2 s / da.isat 5 s)
    if 1 ∈ da.faces ∧ 3 ∈ da.faces ∧ 4 ∈ da.faces ∧ 6 ∈ da.faces then
      let mach_correction_fore : σ → ℝ :=
        fun s => magnetization_factor * Real.log (da.isat 3 s / da.isat 6 s)
      let mach_correction_aft : σ → ℝ :=
        fun s => magnetization_factor * Real.log (da.isat 1 s / da.isat 4 s)
      let perpendicular_mach_fore : σ → ℝ :=
        fun s => (parallel_mach s - mach_correction_fore s) * Real.cos angle_fore
      let perpendicular_mach_aft : σ → ℝ :=
        fun s => (parallel_mach s - mach_correction_aft s) * Real.cos angle_aft
      let perpendicular_mach : σ → ℝ :=
        fun s => (perpendicular_mach_fore s + perpendicular_mach_aft s) / 2
      .ok ⟨parallel_mach, some perpendicular_mach, some perpendicular_mach_fore,
           some perpendicular_mach_aft⟩
    else .ok ⟨parallel_mach, none, none, none⟩
  else .error "KeyError: face"

/-- `M_para` of a Mach-number result at a point, `none` when the call
raised. -/
def mparaAt {σ : Type} (r : Except String (MachDS σ)) (s : σ) : Option ℝ :=
  match r with
  | .ok ds => some (ds.M_para s)
  | .error _ => none

/-- `M_perp` of a Mach-number result at a point, `none` when the call raised
or the variable is absent. -/
def mperpAt {σ : Type} (r : Except String (MachDS σ)) (s : σ) : Option ℝ :=
  match r with
  | .ok ds => ds.M_perp.map (fun f => f s)
  | .error _ => none

/-- `M_perp_fore` of a Mach-number result at a point. -/
def mperpForeAt {σ : Type} (r : Except String (MachDS σ)) (s : σ) : Option ℝ :=
  match r with
  | .ok ds => ds.M_perp_fore.map (fun f => f s)
  | .error _ => none

/-- `M_perp_aft` of a Mach-number result at a point. -/
def mperpAftAt {σ : Type} (r : Except String (MachDS σ)) (s : σ) : Option ℝ :=
  match r with
  | .ok ds => ds.M_perp_aft.map (fun f => f s)
  | .error _ => none

/-- Adiabatic index (velocity.py line 135). -/
def ion_adiabatic_index : ℝ := 3

/-- Modelled from the spec: `ion_temperature`, imported from langmuir.helper
(a module not under src/), is the fixed assumed LAPD ion temperature of 1 eV,
so `.to(u.eV).value` is 1. -/
def ion_temperature_eV : ℝ := 1

/-- Numeric value of `np.sqrt(1 * u.eV / u.kg).to(u.m / u.s)` (velocity.py
line 139): the square root of the elementary charge in SI units. -/
noncomputable def sqrt_eV_per_kg : ℝ := Real.sqrt (1.602176634 * 10 ^ (-(19 : ℤ)))

/-- Local ion sound speed (velocity.py lines 138-139):
`sqrt((T_e + gamma * T_i) / m_ion)` converted from sqrt(eV/kg) to m/s. -/
noncomputable def sound_speed {τ : Type} (electron_temperature : τ → ℝ)
    (ion_mass : ℝ) : τ → ℝ :=
  fun t => Real.sqrt ((electron_temperature t + ion_adiabatic_index * ion_temperature_eV)
    / ion_mass) * sqrt_eV_per_kg

/-- Modelled from the spec: `crunch_data` (langmuir.helper, not under src/)
re-bins every variable of the Mach dataset onto the Langmuir time grid, and
the port reindexing (velocity.py lines 141-146) re-aligns positions by
nearest port; both transform the data of each variable but neither add nor
remove dataset variables.  The whole re-gridding step is abstracted as the
map `regrid` applied to every variable present. -/
def crunch_data {σ τ : Type} (regrid : (σ → ℝ) → τ → ℝ) (ds : MachDS σ) : MachDS τ :=
  ⟨regrid ds.M_para, ds.M_perp.map regrid, ds.M_perp_fore.map regrid,
   ds.M_perp_aft.map regrid⟩

/-- The flow-velocity Dataset: `v_para` always, `v_perp` only when
produced. -/
structure VelocityDS (τ : Type) where
  v_para : τ → ℝ
  v_perp : Option (τ → ℝ)

/-- Embeds `get_velocity` (velocity.py lines 108-159): sound speed from the
electron temperature, the ion mass looked up from the species identifier via
the external particle table `particle_mass`, re-gridded Mach numbers, then
`v_para = M_para * C_s` always and `v_perp = M_perp * C_s` exactly when
`M_perp` is present in the re-gridded dataset. -/
noncomputable def get_velocity {σ τ : Type} (regrid : (σ → ℝ) → τ → ℝ)
    (mach_ds : MachDS σ) (electron_temperature : τ → ℝ)
    (particle_mass : String → ℝ) (ion_type : String) : VelocityDS τ :=
  let ion_mass := particle_mass ion_type
  let cs := sound_speed electron_temperature ion_mass
  let crunched := crunch_data regrid mach_ds
  { v_para := fun t => crunched.M_para t * cs t
    v_perp := crunched.M_perp.map (fun m => fun t => m t * cs t) }

/-! ## Concrete instances used to evaluate the embedded code -/

/-- A raw interferometry block with one shot: constant line-integrated density
that collapses to zero at the third sample. -/
def demoInterRaw : List (List ℚ) := [[1, 1, 0, 0]]

/-- An x-active density field (x length 3, y degenerate, 3 plateaus); the
density vanishes on the second plateau, so its x line integral is zero
there. -/
def demoDensity : DensityInput :=
  { sizes := [("x", 3), ("y", 1), ("plateau", 3)]
    xs := [-1, 0, 1]
    ys := [0]
    plateaus := [1, 2, 3]
    times := [0, 1/10, 1/5]
    data := fun _ _ p => some (if p = 1 then 0 else 1) }

/-- A y-active density field (x degenerate, y length 3, 3 plateaus). -/
def demoYDensity : DensityInput :=
  { sizes := [("x", 1), ("y", 3), ("plateau", 3)]
    xs := [0]
    ys := [-1, 0, 1]
    plateaus := [1, 2, 3]
    times := [0, 1/10, 1/5]
    data := fun _ _ _ => some 1 }

/-- A density field without an `x` dimension. -/
def demoNoX : DensityInput :=
  { sizes := [("y", 2), ("plateau", 2)]
    xs := []
    ys := [0, 1]
    plateaus := [1, 2]
    times := [0, 1]
    data := fun _ _ _ => some 1 }

/-- A density field without a `y` dimension. -/
def demoNoY : DensityInput :=
  { sizes := [("x", 2), ("plateau", 2)]
    xs := [0, 1]
    ys := []
    plateaus := [1, 2]
    times := [0, 1]
    data := fun _ _ _ => some 1 }

/-- The calibration pipeline applied to the x-active demo field over the full
steady-state range 1-3. -/
def demoRes : Except String CalOutput :=
  interferometry_calibration demoDensity demoInterRaw 1 3 26

/-- The same pipeline with steady-state range 1-2, so the third plateau lies
strictly outside the range. -/
def demoRes2 : Except String CalOutput :=
  interferometry_calibration demoDensity demoInterRaw 1 2 26

/-- A Mach input offering only faces 2 and 5. -/
def machFaces25 : MachInput Unit := ⟨{2, 5}, fun _ _ => 1⟩

/-- A Mach input with all six faces, equal currents on faces 1/4 and 3/6 but
unequal currents on faces 2/5. -/
noncomputable def machCex : MachInput Unit :=
  ⟨{1, 2, 3, 4, 5, 6}, fun f _ => if f = 2 then 2 else 1⟩

/-- A Mach input with all six faces and all currents equal to 1. -/
def machAllOnes : MachInput Unit := ⟨{1, 2, 3, 4, 5, 6}, fun _ _ => 1⟩

/-- A physically degenerate Mach input: both parallel currents are zero. -/
def machZero25 : MachInput Unit := ⟨{2, 5}, fun _ _ => 0⟩

/-- A Mach dataset with no perpendicular component and zero parallel Mach
number. -/
def machDSZero : MachDS Unit := ⟨fun _ => 0, none, none, none⟩

/-! ## Claim theorems (first batch) -/

/-- Claim C8: `to_real_units_interferometry` multiplies the data array by the
fixed area-normalization constant and the time array by the fixed
time-per-sample constant, and nothing else; dividing each returned array by
its constant recovers the original raw values exactly. -/
theorem to_real_units_interferometry_roundtrip (dat tim : List ℚ) :
    (to_real_units_interferometry dat tim).1.map (· / area_factor) = dat ∧
    (to_real_units_interferometry dat tim).2.map (· / time_factor) = tim ∧
    (to_real_units_interferometry dat tim).1 = dat.map (· * area_factor) ∧
    (to_real_units_interferometry dat tim).2 = tim.map (· * time_factor) := by
  have ha : (area_factor : ℚ) ≠ 0 := by norm_num [area_factor]
  have ht : (time_factor : ℚ) ≠ 0 := by norm_num [time_factor]
  refine ⟨?_, ?_, rfl, rfl⟩
  · simp only [to_real_units_interferometry, List.map_map]
    have : ((· / area_factor) ∘ (· * area_factor)) = fun x : ℚ => x := by
      funext x; simp [mul_div_assoc, div_self ha]
    simp [this]
  · simp only [to_real_units_interferometry, List.map_map]
    have : ((· / time_factor) ∘ (· * time_factor)) = fun x : ℚ => x := by
      funext x; simp [mul_div_assoc, div_self ht]
    simp [this]

/-- The strict two-sided bucket condition of lines 92-93 is the same as lying
strictly within half a time step of `t`. -/
lemma bucket_cond_iff (s t dt : ℚ) :
    (t - dt / 2 < s ∧ s < t + dt / 2) ↔ |s - t| < dt / 2 := by
  rw [abs_sub_lt_iff]
  constructor <;> intro h <;> constructor <;> linarith [h.1, h.2]

/-- `rebin` averages exactly the samples of the claim's bucket. -/
lemma rebin_eq_claim_bucket (samples : List (ℚ × Option ℚ)) (dt t : ℚ) :
    rebin samples dt t = meanList (claim_bucket samples dt t) := by
  unfold rebin claim_bucket
  congr 2
  apply List.filter_congr
  intro sm _
  exact decide_eq_decide.mpr (bucket_cond_iff sm.1 t dt)

lemma range_filter_eq_singleton (n i : ℕ) (h : i < n) :
    (List.range n).filter (fun j => decide (j = i)) = [i] := by
  induction n with
  | zero => omega
  | succ m ih =>
    rw [List.range_succ, List.filter_append]
    rcases Nat.lt_or_ge i m with him | him
    · rw [ih him]
      have : (List.filter (fun j => decide (j = i)) [m]) = [] := by
        simp; omega
      simp [this]
    · have him' : i = m := by omega
      subst him'
      have h1 : (List.range i).filter (fun j => decide (j = i)) = [] := by
        apply List.filter_eq_nil_iff.mpr
        intro a ha
        have := List.mem_range.mp ha
        simp; omega
      simp [h1]

lemma gridTimes_getD (n : ℕ) (t0 h : ℚ) (k : ℕ) (hk : k < n) :
    (gridTimes n t0 h).getD k 0 = t0 + (k : ℚ) * h := by
  unfold gridTimes
  rw [List.getD_eq_getElem?_getD, List.getElem?_map, List.getElem?_range hk]
  rfl

lemma gridTimes_length (n : ℕ) (t0 h : ℚ) : (gridTimes n t0 h).length = n := by
  simp [gridTimes]

/-- On an evenly spaced grid of `n` points with spacing `h`, line 63's average
time step evaluates to `(n-1)·h/n`. -/
lemma time_step_grid (n : ℕ) (t0 h : ℚ) (hn : 1 ≤ n) :
    time_step (gridTimes n t0 h) = ((n : ℚ) - 1) * h / n := by
  unfold time_step
  rw [gridTimes_length, gridTimes_getD n t0 h (n - 1) (by omega),
      gridTimes_getD n t0 h 0 (by omega)]
  have : ((n - 1 : ℕ) : ℚ) = (n : ℚ) - 1 := by
    push_cast [Nat.cast_sub hn]
    ring
  rw [this]
  ring_nf

/-- Claim C6: the re-binned value at density time `t` is the mean of exactly
those shifted interferometry samples lying within half a density time-step of
`t`; an empty bucket yields an undefined value (not an error); and for a trace
sampled exactly on an evenly spaced density time grid, with one sample per
bucket, re-binning returns the original values unchanged. -/
theorem rebin_bucket_mean_and_conservation :
    (∀ samples dt t, rebin samples dt t = meanList (claim_bucket samples dt t)) ∧
    (∀ samples dt t, claim_bucket samples dt t = [] → rebin samples dt t = none) ∧
    (∀ (n : ℕ) (t0 h : ℚ) (v : ℕ → ℚ) (i : ℕ), 2 ≤ n → 0 < h → i < n →
      rebin (gridSamples n t0 h v) (time_step (gridTimes n t0 h)) (t0 + (i : ℚ) * h)
        = some (v i)) := by
  refine ⟨fun samples dt t => rebin_eq_claim_bucket samples dt t,
          fun samples dt t hempty => ?_, ?_⟩
  · rw [rebin_eq_claim_bucket, hempty]
    simp [meanList]
  · intro n t0 h v i hn hh hi
    have hn0 : (0 : ℚ) < n := by positivity
    have hn2 : (2 : ℚ) ≤ n := by exact_mod_cast hn
    set dt : ℚ := time_step (gridTimes n t0 h) with hdt_def
    have hdt : dt = ((n : ℚ) - 1) * h / n := time_step_grid n t0 h (by omega)
    have hn1 : (0 : ℚ) < (n : ℚ) - 1 := by linarith
    have hdtpos : 0 < dt := by
      rw [hdt]; exact div_pos (mul_pos hn1 hh) hn0
    have hdth : dt / 2 < h := by
      rw [hdt, div_div, div_lt_iff₀ (by positivity)]
      nlinarith
    unfold rebin gridSamples
    rw [List.filter_map]
    have hcongr : ∀ j ∈ List.range n,
        ((fun sm : ℚ × Option ℚ =>
            decide (t0 + (i : ℚ) * h - dt / 2 < sm.1 ∧ sm.1 < t0 + (i : ℚ) * h + dt / 2)) ∘
          (fun (j : ℕ) => (t0 + (j : ℚ) * h, some (v j)))) j
          = (fun j => decide (j = i)) j := by
      intro j _
      simp only [Function.comp_apply, decide_eq_decide]
      constructor
      · rintro ⟨h1, h2⟩
        by_contra hji
        rcases Nat.lt_or_ge j i with hlt | hge
        · have : (j : ℚ) + 1 ≤ (i : ℚ) := by exact_mod_cast Nat.succ_le_of_lt hlt
          nlinarith
        · have hgt : i < j := by omega
          have : (i : ℚ) + 1 ≤ (j : ℚ) := by exact_mod_cast Nat.succ_le_of_lt hgt
          nlinarith
      · intro hj
        subst hj
        constructor <;> nlinarith
    rw [List.filter_congr hcongr, range_filter_eq_singleton n i hi]
    simp [meanList]

/-- Claim C6 witness: the conservation part applied at a concrete grid of three
evenly spaced samples. -/
theorem rebin_conservation_witness :
    rebin (gridSamples 3 0 1 (fun j => (j : ℚ) + 5)) (time_step (gridTimes 3 0 1))
        (0 + (1 : ℚ) * 1) = some 6 := by
  have := rebin_bucket_mean_and_conservation.2.2 3 0 1 (fun j => (j : ℚ) + 5) 1
    (by norm_num) (by norm_num) (by norm_num)
  norm_num at this ⊢
  exact this

/-- Claim C1 (evaluation at the failing input): with both axes active and
x-scaling ≡ 1, y-scaling ≡ 3, the combined factor produced by lines 124-125 is
1/2 (the x factor halved), not the elementwise mean 2; with exactly one axis
active the factor is that axis's scaling factor unchanged. -/
theorem density_scale_factor_precedence_eval :
    density_scale_factor true true (fun _ _ => some 1) (fun _ _ => some 3) 0 0
      = some (1 / 2) ∧
    ((1 : ℚ) / 2 ≠ (1 + 3) / 2) ∧
    density_scale_factor true false (fun _ _ => some 1) (fun _ _ => some 3) 0 0
      = some 1 ∧
    density_scale_factor false true (fun _ _ => some 1) (fun _ _ => some 3) 0 0
      = some 3 := by
  refine ⟨?_, by norm_num, ?_, ?_⟩ <;>
    norm_num [density_scale_factor, divOpt, addOpt, zeroScal]

/-! ## Evaluation lemmas for the concrete demo inputs -/

lemma demo_lookup_x : sizes_lookup demoDensity.sizes "x" = .ok 3 := by
  simp [sizes_lookup, demoDensity]

lemma demo_lookup_y : sizes_lookup demoDensity.sizes "y" = .ok 1 := by
  simp [sizes_lookup, demoDensity]

lemma demo_means : column_means demoInterRaw = [1, 1, 0, 0] := by
  norm_num [column_means, demoInterRaw, List.range_succ]

lemma demo_units : to_real_units_interferometry [1, 1, 0, 0] (arange 4) =
    ([80000000000000, 80000000000000, 0, 0], [0, 61/1250, 61/625, 183/1250]) := by
  norm_num [to_real_units_interferometry, arange, area_factor, time_factor, List.range_succ]

lemma demo_collapse :
    inter_collapse_time [80000000000000, 80000000000000, 0, 0] [0, 61/1250, 61/625, 183/1250]
      = 61/1250 := by
  norm_num [inter_collapse_time, argminIdx, gradient_at, List.range_succ]

lemma demo_xint0 : (x_integral demoDensity 26).values 0 0 = some (1/500000) := by
  norm_num [x_integral, demoDensity, keptIdx, List.range_succ, core_interp_density,
    interpolate_na, density_data_cm3, trapz, addOpt, mulOpt, m3_to_cm3]

lemma demo_xint1 : (x_integral demoDensity 26).values 0 1 = some 0 := by
  norm_num [x_integral, demoDensity, keptIdx, List.range_succ, core_interp_density,
    interpolate_na, density_data_cm3, trapz, addOpt, mulOpt, m3_to_cm3]

lemma demo_xint2 : (x_integral demoDensity 26).values 0 2 = some (1/500000) := by
  norm_num [x_integral, demoDensity, keptIdx, List.range_succ, core_interp_density,
    interpolate_na, density_data_cm3, trapz, addOpt, mulOpt, m3_to_cm3]

lemma demo_xint_dims : (x_integral demoDensity 26).dimNames = ["y", "plateau"] := rfl

lemma demo_xint_secLen : (x_integral demoDensity 26).secLen = 1 := by
  simp [x_integral, demoDensity, keptIdx, List.range_succ]

lemma demo_xint_sampleLen : (x_integral demoDensity 26).sampleLen = 3 := rfl

lemma demo_xint_timeCoord :
    ∀ p, (x_integral demoDensity 26).timeCoord p = demoDensity.times.getD p 0 :=
  fun _ => rfl

lemma demo_xint_argmax : argmaxOpt ((x_integral demoDensity 26).values 0) 3 = 0 := by
  unfold argmaxOpt
  rw [show List.range 3 = [0, 1, 2] from rfl]
  norm_num [List.foldl_cons, List.foldl_nil, demo_xint0, demo_xint1, demo_xint2]

lemma demo_cx : density_collapse_time_x (x_integral demoDensity 26) = .ok 0 := by
  unfold density_collapse_time_x
  rw [demo_xint_dims]
  rw [if_pos (by simp)]
  rw [demo_xint_secLen, demo_xint_sampleLen]
  unfold rmean
  rw [show List.range 1 = [0] from rfl]
  simp only [List.map_cons, List.map_nil, List.sum_cons, List.sum_nil, demo_xint_argmax,
    demo_xint_timeCoord]
  norm_num [demoDensity, List.getD_cons_zero]

lemma demo_avg0 : inter_avg_on_density_times [80000000000000, 80000000000000, 0, 0]
    [0, 61/1250, 61/625, 183/1250] (-(61/1250)) (time_step demoDensity.times)
    demoDensity.times 0 = some 80000000000000 := by
  have hts : time_step demoDensity.times = 1/15 := by norm_num [time_step, demoDensity]
  rw [hts]
  norm_num [inter_avg_on_density_times, rebin, meanList, demoDensity, List.zip,
    List.zipWith, List.filterMap_cons, List.filterMap_nil]

lemma demo_avg1 : inter_avg_on_density_times [80000000000000, 80000000000000, 0, 0]
    [0, 61/1250, 61/625, 183/1250] (-(61/1250)) (time_step demoDensity.times)
    demoDensity.times 1 = some 0 := by
  have hts : time_step demoDensity.times = 1/15 := by norm_num [time_step, demoDensity]
  rw [hts]
  norm_num [inter_avg_on_density_times, rebin, meanList, demoDensity, List.zip,
    List.zipWith, List.filterMap_cons, List.filterMap_nil]

lemma demo_avg2 : inter_avg_on_density_times [80000000000000, 80000000000000, 0, 0]
    [0, 61/1250, 61/625, 183/1250] (-(61/1250)) (time_step demoDensity.times)
    demoDensity.times 2 = none := by
  have hts : time_step demoDensity.times = 1/15 := by norm_num [time_step, demoDensity]
  rw [hts]
  norm_num [inter_avg_on_density_times, rebin, meanList, demoDensity, List.zip,
    List.zipWith, List.filterMap_cons, List.filterMap_nil]

lemma demo_ys : demoDensity.ys = [0] := rfl

lemma demo_plateaus : demoDensity.plateaus = [1, 2, 3] := rfl

lemma demo_data : demoDensity.data = fun _ _ p => some (if p = 1 then 0 else 1) := rfl

/-! ## Claim theorems (second batch) -/

/-- Claim C2: the calibrated density is the original density field times the
combined scaling factor, masked (`.where`) to the inclusive steady-state
plateau range: outside the range the output is undefined, not zero; inside
the range it is the elementwise product wherever both operands are defined.
The last conjunct evaluates the full pipeline with steady-state range 1-2:
the third plateau (index 3) is masked out even though its data is defined,
while the first plateau carries the product. -/
theorem calibrated_density_steady_state_mask
    (density factor : ℕ → ℕ → ℕ → Option ℚ) (plCo : ℕ → ℚ) (ssStart ssEnd : ℚ)
    (i j p : ℕ) :
    (¬(ssStart ≤ plCo p ∧ plCo p ≤ ssEnd) →
      calibrated_density density factor plCo ssStart ssEnd i j p = none) ∧
    ((ssStart ≤ plCo p ∧ plCo p ≤ ssEnd) →
      calibrated_density density factor plCo ssStart ssEnd i j p
        = mulOpt (density i j p) (factor i j p)) ∧
    (∀ a b : ℚ, ssStart ≤ plCo p → plCo p ≤ ssEnd → density i j p = some a →
      factor i j p = some b →
      calibrated_density density factor plCo ssStart ssEnd i j p = some (a * b)) ∧
    ((exceptOk? demoRes2).map (fun r => (r.calibrated 0 0 2, r.calibrated 0 0 0))
      = some (none, some (4 * 10 ^ 19))) := by
  refine ⟨fun h => by simp [calibrated_density, if_neg h],
          fun h => by simp [calibrated_density, if_pos h],
          fun a b hs he hd hf => by
            simp [calibrated_density, if_pos (And.intro hs he), hd, hf, mulOpt], ?_⟩
  norm_num [demoRes2, interferometry_calibration, exceptOk?, demo_means, demo_units,
    demo_lookup_x, demo_lookup_y, demo_collapse, demo_cx, demo_avg0, demo_avg1, demo_avg2,
    demo_xint0, demo_xint1, demo_xint2, axis_scaling, divOpt, calibrated_density, alignIdx,
    keptIdx, demo_ys, demo_plateaus, demo_data, density_scale_factor, zeroScal, mulOpt,
    addOpt, List.range_succ, List.findIdx?]

/-- Claim C2 witness: the masking theorem applied at a concrete density,
factor and plateau coordinate. -/
theorem calibrated_density_steady_state_mask_witness :
    calibrated_density (fun _ _ _ => some 2) (fun _ _ _ => some 3)
        (fun p => (p : ℚ) + 1) 1 2 0 0 2 = none ∧
    calibrated_density (fun _ _ _ => some 2) (fun _ _ _ => some 3)
        (fun p => (p : ℚ) + 1) 1 2 0 0 0 = some (2 * 3) := by
  constructor
  · exact (calibrated_density_steady_state_mask (fun _ _ _ => some 2) (fun _ _ _ => some 3)
      (fun p => (p : ℚ) + 1) 1 2 0 0 2).1 (by norm_num)
  · exact (calibrated_density_steady_state_mask (fun _ _ _ => some 2) (fun _ _ _ => some 3)
      (fun p => (p : ℚ) + 1) 1 2 0 0 0).2.2.1 2 3 (by norm_num) (by norm_num) rfl rfl

/-- Claim C10: `interferometry_calibration` requires the density field to
carry both an `x` and a `y` dimension; an input lacking either dimension name
fails with an exception (from the `sizes` lookups of lines 48-49) before any
result is produced, while a length-1 axis is merely treated as inactive (the
last conjunct: the x-active demo input with a length-1 `y` succeeds with
`has_y = False`). -/
theorem interferometry_calibration_requires_xy
    (d : DensityInput) (inter_raw : List (List ℚ)) (s e c : ℚ) :
    (d.sizes.find? (fun kv => kv.1 == "x") = none →
      interferometry_calibration d inter_raw s e c = .error "KeyError: x") ∧
    (∀ kv : String × ℕ, d.sizes.find? (fun kv' => kv'.1 == "x") = some kv →
      d.sizes.find? (fun kv' => kv'.1 == "y") = none →
      interferometry_calibration d inter_raw s e c = .error "KeyError: y") ∧
    (interferometry_calibration demoNoX demoInterRaw 1 2 26 = .error "KeyError: x") ∧
    (interferometry_calibration demoNoY demoInterRaw 1 2 26 = .error "KeyError: y") ∧
    ((exceptOk? demoRes).map (fun r => (r.has_x, r.has_y)) = some (true, false)) := by
  refine ⟨?_, ?_, rfl, rfl, rfl⟩
  · intro h
    simp only [interferometry_calibration, sizes_lookup, h]
    rfl
  · intro kv hx hy
    simp only [interferometry_calibration, sizes_lookup, hx, hy]
    rfl

/-- Claim C10 witness: the missing-dimension cases applied at concrete
inputs. -/
theorem interferometry_calibration_requires_xy_witness :
    interferometry_calibration demoNoX demoInterRaw 1 2 26 = .error "KeyError: x" ∧
    interferometry_calibration demoNoY demoInterRaw 1 2 26 = .error "KeyError: y" := by
  constructor
  · exact (interferometry_calibration_requires_xy demoNoX demoInterRaw 1 2 26).1 (by simp [demoNoX])
  · exact (interferometry_calibration_requires_xy demoNoY demoInterRaw 1 2 26).2.1
      ("x", 2) (by simp [demoNoY]) (by simp [demoNoY])

/-- Claim C5 (evaluation at the failing input): the interferometry collapse
time is the time of the minimum derivative (last conjunct), and the x branch's
density-collapse computation (`idxmax('plateau')` followed by the `time`
coordinate mean, line 81) succeeds on the x line integral; but the y branch
(line 105) computes `idxmax('time')` instead, and `time` is not a dimension of
the y line integral (its dimensions are x and plateau), so xarray raises
`KeyError` - the two axes do not use the same collapse-time computation, and
the whole call fails on any y-active input. -/
theorem collapse_time_axis_mismatch :
    (x_integral demoDensity 26).dimNames = ["y", "plateau"] ∧
    (y_integral demoYDensity 26).dimNames = ["x", "plateau"] ∧
    density_collapse_time_x (x_integral demoDensity 26) = .ok 0 ∧
    density_collapse_time_y (y_integral demoYDensity 26) = .error "KeyError: time" ∧
    interferometry_calibration demoYDensity demoInterRaw 1 3 26 = .error "KeyError: time" ∧
    inter_collapse_time [80000000000000, 80000000000000, 0, 0]
        [0, 61/1250, 61/625, 183/1250] = 61/1250 := by
  exact ⟨rfl, rfl, demo_cx, rfl, rfl, demo_collapse⟩

/-- Claim C4: provided the parallel faces 2 and 5 are present (without them
`.sel` raises before any result exists), `get_mach_numbers` returns a result
that always contains `M_para`, and contains `M_perp`, `M_perp_fore`,
`M_perp_aft` exactly when all four faces 1, 3, 4, 6 are present; on the input
offering only faces 2 and 5 the result carries `M_para` and none of the
perpendicular variables. -/
theorem get_mach_numbers_availability {σ : Type} (da : MachInput σ)
    (h2 : 2 ∈ da.faces) (h5 : 5 ∈ da.faces) :
    (exceptOk? (get_mach_numbers da)).isSome = true ∧
    ((exceptOk? (get_mach_numbers da)).map (fun ds => ds.M_perp.isSome)
      = some (decide (1 ∈ da.faces ∧ 3 ∈ da.faces ∧ 4 ∈ da.faces ∧ 6 ∈ da.faces))) ∧
    ((exceptOk? (get_mach_numbers da)).map (fun ds => ds.M_perp_fore.isSome)
      = some (decide (1 ∈ da.faces ∧ 3 ∈ da.faces ∧ 4 ∈ da.faces ∧ 6 ∈ da.faces))) ∧
    ((exceptOk? (get_mach_numbers da)).map (fun ds => ds.M_perp_aft.isSome)
      = some (decide (1 ∈ da.faces ∧ 3 ∈ da.faces ∧ 4 ∈ da.faces ∧ 6 ∈ da.faces))) ∧
    ((exceptOk? (get_mach_numbers machFaces25)).map
        (fun ds => (ds.M_perp.isSome, ds.M_perp_fore.isSome, ds.M_perp_aft.isSome))
      = some (false, false, false)) ∧
    (mparaAt (get_mach_numbers machFaces25) ()
      = some (magnetization_factor
          * Real.log (machFaces25.isat 2 () / machFaces25.isat 5 ()))) := by
  have h25 : (exceptOk? (get_mach_numbers machFaces25)).map
        (fun ds => (ds.M_perp.isSome, ds.M_perp_fore.isSome, ds.M_perp_aft.isSome))
      = some (false, false, false) := by
    unfold get_mach_numbers
    rw [if_pos (by decide : 2 ∈ machFaces25.faces ∧ 5 ∈ machFaces25.faces)]
    rw [if_neg (by decide :
      ¬(1 ∈ machFaces25.faces ∧ 3 ∈ machFaces25.faces ∧ 4 ∈ machFaces25.faces ∧
        6 ∈ machFaces25.faces))]
    simp [exceptOk?]
  have hpar25 : mparaAt (get_mach_numbers machFaces25) ()
      = some (magnetization_factor
          * Real.log (machFaces25.isat 2 () / machFaces25.isat 5 ())) := by
    unfold get_mach_numbers mparaAt
    rw [if_pos (by decide : 2 ∈ machFaces25.faces ∧ 5 ∈ machFaces25.faces)]
    rw [if_neg (by decide :
      ¬(1 ∈ machFaces25.faces ∧ 3 ∈ machFaces25.faces ∧ 4 ∈ machFaces25.faces ∧
        6 ∈ machFaces25.faces))]
  unfold get_mach_numbers
  rw [if_pos ⟨h2, h5⟩]
  by_cases hp : 1 ∈ da.faces ∧ 3 ∈ da.faces ∧ 4 ∈ da.faces ∧ 6 ∈ da.faces
  · rw [if_pos hp]
    refine ⟨rfl, ?_, ?_, ?_, h25, hpar25⟩ <;>
      simp [exceptOk?, decide_eq_true hp]
  · rw [if_neg hp]
    refine ⟨rfl, ?_, ?_, ?_, h25, hpar25⟩ <;>
      simp [exceptOk?, decide_eq_false hp]

/-- Claim C4 witness: the availability theorem applied at the all-faces input
and the availability gate evaluated there. -/
theorem get_mach_numbers_availability_witness :
    (exceptOk? (get_mach_numbers machAllOnes)).isSome = true ∧
    (exceptOk? (get_mach_numbers machAllOnes)).map (fun ds => ds.M_perp.isSome)
      = some true := by
  have h := get_mach_numbers_availability machAllOnes (by decide) (by decide)
  refine ⟨h.1, ?_⟩
  rw [h.2.1]
  decide

/-- Claim C3 counterexample: on an input with all six faces, equal currents on
faces 1/4 and on faces 3/6 but current 2 on face 2 against 1 on face 5, the
perpendicular Mach number is `M_para * cos(pi/4) = 0.5 * log 2 * cos(pi/4)`,
which is not 0 - the claim's second half is false as stated. -/
theorem mach_symmetry_counterexample :
    machCex.isat 1 = machCex.isat 4 ∧
    machCex.isat 3 = machCex.isat 6 ∧
    mperpAt (get_mach_numbers machCex) () ≠ some 0 := by
  refine ⟨rfl, rfl, ?_⟩
  have e2 : machCex.isat 2 () = 2 := by norm_num [machCex]
  have e5 : machCex.isat 5 () = 1 := by norm_num [machCex]
  have e3 : machCex.isat 3 () = 1 := by norm_num [machCex]
  have e6 : machCex.isat 6 () = 1 := by norm_num [machCex]
  have e1 : machCex.isat 1 () = 1 := by norm_num [machCex]
  have e4 : machCex.isat 4 () = 1 := by norm_num [machCex]
  unfold get_mach_numbers mperpAt
  rw [if_pos (by decide : 2 ∈ machCex.faces ∧ 5 ∈ machCex.faces)]
  rw [if_pos (by decide : 1 ∈ machCex.faces ∧ 3 ∈ machCex.faces ∧ 4 ∈ machCex.faces ∧
    6 ∈ machCex.faces)]
  simp only [Option.map_some', ne_eq, Option.some.injEq]
  rw [e2, e5, e3, e6, e1, e4]
  intro h
  rw [magnetization_factor, angle_fore, angle_aft] at h
  norm_num [Real.log_one] at h

/-- Claim C3 amended: if the face-2 and face-5 currents agree (and are
nonzero) at a point, `M_para` is exactly 0 there; if additionally faces 1, 3,
4, 6 are present with the face-1/4 and face-3/6 currents agreeing (nonzero),
then `M_perp`, `M_perp_fore` and `M_perp_aft` are also exactly 0 there. -/
theorem mach_symmetry_amended {σ : Type} (da : MachInput σ) (s : σ)
    (h2 : 2 ∈ da.faces) (h5 : 5 ∈ da.faces)
    (heq25 : da.isat 2 s = da.isat 5 s) (hne5 : da.isat 5 s ≠ 0) :
    mparaAt (get_mach_numbers da) s = some 0 ∧
    (1 ∈ da.faces → 3 ∈ da.faces → 4 ∈ da.faces → 6 ∈ da.faces →
      da.isat 1 s = da.isat 4 s → da.isat 4 s ≠ 0 →
      da.isat 3 s = da.isat 6 s → da.isat 6 s ≠ 0 →
      mperpAt (get_mach_numbers da) s = some 0 ∧
      mperpForeAt (get_mach_numbers da) s = some 0 ∧
      mperpAftAt (get_mach_numbers da) s = some 0) := by
  have hpar : magnetization_factor * Real.log (da.isat 2 s / da.isat 5 s) = 0 := by
    rw [heq25, div_self hne5, Real.log_one, mul_zero]
  constructor
  · unfold get_mach_numbers mparaAt
    rw [if_pos ⟨h2, h5⟩]
    by_cases hp : 1 ∈ da.faces ∧ 3 ∈ da.faces ∧ 4 ∈ da.faces ∧ 6 ∈ da.faces
    · rw [if_pos hp]
      simpa using hpar
    · rw [if_neg hp]
      simpa using hpar
  · intro h1 h3 h4 h6 heq14 hne4 heq36 hne6
    have hcf : magnetization_factor * Real.log (da.isat 3 s / da.isat 6 s) = 0 := by
      rw [heq36, div_self hne6, Real.log_one, mul_zero]
    have hca : magnetization_factor * Real.log (da.isat 1 s / da.isat 4 s) = 0 := by
      rw [heq14, div_self hne4, Real.log_one, mul_zero]
    unfold get_mach_numbers mperpAt mperpForeAt mperpAftAt
    rw [if_pos ⟨h2, h5⟩, if_pos ⟨h1, h3, h4, h6⟩]
    refine ⟨?_, ?_, ?_⟩ <;> simp [hpar, hcf, hca]

/-- Claim C3 witness: the amended theorem applied at the all-ones input. -/
theorem mach_symmetry_amended_witness :
    mparaAt (get_mach_numbers machAllOnes) () = some 0 ∧
    mperpAt (get_mach_numbers machAllOnes) () = some 0 ∧
    mperpForeAt (get_mach_numbers machAllOnes) () = some 0 ∧
    mperpAftAt (get_mach_numbers machAllOnes) () = some 0 := by
  have h := mach_symmetry_amended machAllOnes () (by decide) (by decide) rfl one_ne_zero
  have h2 := h.2 (by decide) (by decide) (by decide) (by decide) rfl one_ne_zero rfl
    one_ne_zero
  exact ⟨h.1, h2.1, h2.2.1, h2.2.2⟩

/-- Claim C7: `get_velocity` computes the ion sound speed as
`sqrt((T_e + 3 * 1) / m_ion)` (adiabatic index 3, assumed ion temperature
1 eV, unit conversion applied) with the ion mass looked up from the species
identifier; `v_para = M_para * C_s` is always produced, and `v_perp` is
present (with value `M_perp * C_s`) exactly when `M_perp` is present in the
re-gridded Mach dataset - equivalently, in the upstream Mach dataset. -/
theorem get_velocity_sound_speed_and_availability {σ τ : Type}
    (regrid : (σ → ℝ) → τ → ℝ) (mach_ds : MachDS σ) (electron_temperature : τ → ℝ)
    (particle_mass : String → ℝ) (ion_type : String) (t : τ) :
    ((get_velocity regrid mach_ds electron_temperature particle_mass ion_type).v_para t
      = (crunch_data regrid mach_ds).M_para t
        * (Real.sqrt ((electron_temperature t + 3 * 1) / particle_mass ion_type)
            * sqrt_eV_per_kg)) ∧
    ((get_velocity regrid mach_ds electron_temperature particle_mass ion_type).v_perp.isSome
      ↔ (crunch_data regrid mach_ds).M_perp.isSome) ∧
    ((get_velocity regrid mach_ds electron_temperature particle_mass ion_type).v_perp.isSome
      ↔ mach_ds.M_perp.isSome) ∧
    ((get_velocity regrid mach_ds electron_temperature particle_mass ion_type).v_perp
      = (crunch_data regrid mach_ds).M_perp.map
          (fun m => fun u => m u * sound_speed electron_temperature (particle_mass ion_type) u)) := by
  refine ⟨?_, ?_, ?_, rfl⟩
  · simp [get_velocity, sound_speed, ion_adiabatic_index, ion_temperature_eV]
  · simp [get_velocity, crunch_data, Option.isSome_map]
  · simp [get_velocity, crunch_data, Option.isSome_map]

/-- Claim C9: none of the embedded operations raises on physically degenerate
numeric input.  On the demo input whose x line integral vanishes on the second
plateau and whose third re-bin bucket is empty, the pipeline still returns a
result; the scaling factor is undefined at both degenerate plateaus and the
undefinedness propagates into the calibrated output (while the healthy first
plateau carries a defined product); division by exact zero and an empty
re-bin bucket give undefined values rather than errors; and `get_mach_numbers`
and `get_velocity` return results on zero-current and empty-perpendicular
inputs. -/
theorem degenerate_inputs_no_exception :
    (exceptOk? demoRes).isSome = true ∧
    ((exceptOk? demoRes).bind (fun r => r.scaling_x.map (fun f => (f 0 1, f 0 2)))
      = some (none, none)) ∧
    ((exceptOk? demoRes).map
        (fun r => (r.calibrated 0 0 0, r.calibrated 0 0 1, r.calibrated 0 0 2))
      = some (some (4 * 10 ^ 19), none, none)) ∧
    divOpt (some 1) (some 0) = none ∧
    rebin [((5 : ℚ), some 1)] 1 0 = none ∧
    (exceptOk? (get_mach_numbers machZero25)).isSome = true ∧
    (get_velocity (fun f => f) machDSZero (fun _ => 1) (fun _ => 1) "He-4+").v_perp
      = none := by
  refine ⟨rfl, ?_, ?_, by norm_num [divOpt], ?_, ?_, rfl⟩
  · norm_num [demoRes, interferometry_calibration, exceptOk?, demo_means, demo_units,
      demo_lookup_x, demo_lookup_y, demo_collapse, demo_cx, demo_avg0, demo_avg1, demo_avg2,
      demo_xint0, demo_xint1, demo_xint2, axis_scaling, divOpt]
  · norm_num [demoRes, interferometry_calibration, exceptOk?, demo_means, demo_units,
      demo_lookup_x, demo_lookup_y, demo_collapse, demo_cx, demo_avg0, demo_avg1, demo_avg2,
      demo_xint0, demo_xint1, demo_xint2, axis_scaling, divOpt, calibrated_density, alignIdx,
      keptIdx, demo_ys, demo_plateaus, demo_data, density_scale_factor, zeroScal, mulOpt,
      addOpt, List.range_succ, List.findIdx?]
  · norm_num [rebin, meanList]
  · unfold get_mach_numbers
    rw [if_pos (by decide : 2 ∈ machZero25.faces ∧ 5 ∈ machZero25.faces)]
    rw [if_neg (by decide : ¬(1 ∈ machZero25.faces ∧ 3 ∈ machZero25.faces ∧
      4 ∈ machZero25.faces ∧ 6 ∈ machZero25.faces))]
    rfl
